import Mathlib

/-!
# Verification of the Planes game simulation core

Shallow embedding of the simulation core of the Planes repository
(`physics.py`, `game_objects.py`, `game.py`) and proofs about it.

Modelling conventions:

* Python floats (positions, velocities, times) are modelled as rationals `ℚ`,
  so that all state updates are executable and decidable.  Transcendental
  operations (`math.cos`, `math.sin`, `math.atan2`, the constant `pi`) have no
  exact rational counterpart; they are abstracted as the fields of an `Env`
  record, and theorems about the control flow quantify over every `Env`.
  The geometric claim about the spawn annulus, which genuinely needs real
  trigonometry, is settled against a second, real-valued embedding of
  `create_enemy_semi_random_position` further below.
* Python's `int(x)` conversion truncates toward zero; it is modelled by
  `pyInt` (floor for nonnegative arguments, ceiling for negative ones).
* Python's `for x in xs: ... xs.remove(x) ...` iterates by index, so removing
  the current element shifts the list and makes the loop skip the element
  that followed it.  The loops of `Game.move_bullets` (which removes bullets
  and enemies mid-iteration) are embedded with exactly this skipping
  semantics (`enemyScan`, `bulletLoop`).
* Rendering, audio and window management (`tkinter`, `pyglet`, PIL images,
  `music_check`/`play_song`, `rotate_player`/`rotate_enemy` image updates)
  are presentation-layer side effects that read no simulation state relevant
  here and write none of the fields below; they are omitted from the state.
-/

/-- Python's `int()` conversion on a rational: truncation toward zero. -/
def pyInt (q : ℚ) : ℤ :=
  if 0 ≤ q then ⌊q⌋ else ⌈q⌉

/-- Abstract numeric environment standing for the float implementations of
`math.cos`, `math.sin`, `math.atan2` and the constant `math.pi` used by the
source.  Control-flow theorems hold for every environment. -/
structure Env where
  qcos : ℚ → ℚ
  qsin : ℚ → ℚ
  qatan2 : ℚ → ℚ → ℚ
  piQ : ℚ

/-! ## physics.py -/

/-- `physics.Entity`: a position together with a hit box.
`Entity.__init__` sets the hit box to the point `(0, 0)`. -/
structure Entity where
  x_pos : ℚ
  y_pos : ℚ
  x_hit_max : ℚ
  x_hit_min : ℚ
  y_hit_max : ℚ
  y_hit_min : ℚ

/-- `Entity.collision_test`: closed-interval AABB overlap on both axes. -/
def Entity.collision_test (a : Entity) (e : Entity) : Bool :=
  decide (a.x_hit_min ≤ e.x_hit_max ∧ a.x_hit_max ≥ e.x_hit_min ∧
    a.y_hit_min ≤ e.y_hit_max ∧ a.y_hit_max ≥ e.y_hit_min)

/-- `physics.TrueCoordinates`: keeps float (`true_…`) coordinates next to the
integer display coordinates of `Entity`. -/
structure TrueCoordinates extends Entity where
  true_x_pos : ℚ
  true_y_pos : ℚ

/-- `TrueCoordinates.set_integer_position`: display position becomes the
`int()` truncation of the true position, axis by axis. -/
def TrueCoordinates.set_integer_position (t : TrueCoordinates) : TrueCoordinates :=
  { t with x_pos := (pyInt t.true_x_pos : ℚ), y_pos := (pyInt t.true_y_pos : ℚ) }

/-- `TrueCoordinates.shift_position`: shift the float coordinates (the y
shift is subtracted, first-quadrant convention) and refresh the display
position. -/
def TrueCoordinates.shift_position (t : TrueCoordinates) (x_shift y_shift : ℚ) :
    TrueCoordinates :=
  TrueCoordinates.set_integer_position
    { t with true_x_pos := t.true_x_pos + x_shift, true_y_pos := t.true_y_pos - y_shift }

/-- `physics.Flying`: coordinates plus a velocity. -/
structure Flying extends TrueCoordinates where
  x_velocity : ℚ
  y_velocity : ℚ

/-- `Flying.GRAVITY_CONSTANT = .15`. -/
def GRAVITY_CONSTANT : ℚ := 15 / 100

/-- State produced by `Flying.__init__(x_pos, y_pos)`. -/
def Flying.init (x y : ℚ) : Flying :=
  { x_pos := x, y_pos := y,
    x_hit_max := 0, x_hit_min := 0, y_hit_max := 0, y_hit_min := 0,
    true_x_pos := x, true_y_pos := y,
    x_velocity := 0, y_velocity := 0 }

/-- `Flying.accelerate(magnitude, angle)`. -/
def Flying.accelerate (f : Flying) (E : Env) (magnitude angle : ℚ) : Flying :=
  { f with x_velocity := f.x_velocity + magnitude * E.qcos angle,
           y_velocity := f.y_velocity + magnitude * E.qsin angle }

/-- `Flying.move(frame_length)`: displacement is velocity scaled by
`frame_length * 60`. -/
def Flying.move (f : Flying) (frame_length : ℚ) : Flying :=
  let t := f.toTrueCoordinates.shift_position (f.x_velocity * frame_length * 60)
    (f.y_velocity * frame_length * 60)
  { f with toTrueCoordinates := t }

/-- `Flying.drag(drag_coefficient)`. -/
def Flying.drag (f : Flying) (drag_coefficient : ℚ) : Flying :=
  { f with x_velocity := f.x_velocity * drag_coefficient,
           y_velocity := f.y_velocity * drag_coefficient }

/-- `Flying.gravity()`. -/
def Flying.gravity (f : Flying) : Flying :=
  { f with y_velocity := f.y_velocity - GRAVITY_CONSTANT }

/-! ## game_objects.py -/

/-- `PLAYER_SPEED = .5`. -/
def PLAYER_SPEED : ℚ := 1 / 2

/-- `ENEMY_SPEED = .4` (the chase acceleration magnitude `.4`). -/
def ENEMY_SPEED : ℚ := 2 / 5

/-- `BULLET_SPEED = 8`. -/
def BULLET_SPEED : ℚ := 8

/-- `game_objects.Player`: a `Flying` with a facing angle.  The PIL image
fields are presentation state and are omitted. -/
structure Player extends Flying where
  angle : ℚ

/-- State produced by `Player.__init__(x_pos, y_pos)`. -/
def Player.init (x y : ℚ) : Player :=
  { toFlying := Flying.init x y, angle := 0 }

/-- `Player.speed_up`: accelerate with magnitude `PLAYER_SPEED` along the
current angle. -/
def Player.speed_up (p : Player) (E : Env) : Player :=
  { p with toFlying := p.toFlying.accelerate E PLAYER_SPEED p.angle }

/-- `Player.set_hit_box`: half-width 10 box around the display position. -/
def Player.set_hit_box (p : Player) : Player :=
  { p with x_hit_max := p.x_pos + 10, x_hit_min := p.x_pos - 10,
           y_hit_max := p.y_pos + 10, y_hit_min := p.y_pos - 10 }

/-- `Player.drag` (inherited from `Flying`). -/
def Player.drag (p : Player) (c : ℚ) : Player :=
  { p with toFlying := p.toFlying.drag c }

/-- `Player.move` (inherited from `Flying`). -/
def Player.move (p : Player) (frame_length : ℚ) : Player :=
  { p with toFlying := p.toFlying.move frame_length }

/-- `Player.gravity` (inherited from `Flying`). -/
def Player.gravity (p : Player) : Player :=
  { p with toFlying := p.toFlying.gravity }

/-- `game_objects.Enemy`: a `Flying` with an angle and a shot timer. -/
structure Enemy extends Flying where
  angle : ℚ
  last_shot_time : ℚ

/-- State produced by `Enemy.__init__(x_pos, y_pos)`: angle 0 and
`last_shot_time = 0`. -/
def Enemy.init (x y : ℚ) : Enemy :=
  { toFlying := Flying.init x y, angle := 0, last_shot_time := 0 }

/-- `Enemy.chase_player(player_x, player_y)`: store the bearing to the player
(screen-space `atan2`) as the angle and accelerate with magnitude `.4`
along it. -/
def Enemy.chase_player (e : Enemy) (E : Env) (player_x player_y : ℚ) : Enemy :=
  let a := E.qatan2 (e.y_pos - player_y) (player_x - e.x_pos)
  { e with angle := a, toFlying := e.toFlying.accelerate E ENEMY_SPEED a }

/-- `Enemy.set_hit_box`: half-width 10 box around the display position. -/
def Enemy.set_hit_box (e : Enemy) : Enemy :=
  { e with x_hit_max := e.x_pos + 10, x_hit_min := e.x_pos - 10,
           y_hit_max := e.y_pos + 10, y_hit_min := e.y_pos - 10 }

/-- `Enemy.drag` (inherited from `Flying`). -/
def Enemy.drag (e : Enemy) (c : ℚ) : Enemy :=
  { e with toFlying := e.toFlying.drag c }

/-- `Enemy.move` (inherited from `Flying`). -/
def Enemy.move (e : Enemy) (frame_length : ℚ) : Enemy :=
  { e with toFlying := e.toFlying.move frame_length }

/-- `game_objects.create_enemy_semi_random_position(player_x, player_y)`:
the random draws `randrange(750, 1000)` and `randrange(0, 360)` are passed
in as the parameters `rd` (distance) and `rdeg` (angle in degrees); the
spawn coordinates are `int()`-truncated. -/
def create_enemy_semi_random_position (E : Env) (rd rdeg : ℕ) (player_x player_y : ℚ) :
    Enemy :=
  let angle : ℚ := (rdeg : ℚ) / 180 * E.piQ
  Enemy.init (pyInt (player_x + (rd : ℚ) * E.qcos angle) : ℤ)
    (pyInt (player_y + (rd : ℚ) * E.qsin angle) : ℤ)

/-- `game_objects.Bullet`: a `Flying` with a creation time and a team tag
(`true` = fired by the player). -/
structure Bullet extends Flying where
  creation_time : ℚ
  team : Bool

/-- State produced by
`Bullet.__init__(x, y, starting_x_velocity, starting_y_velocity, angle, time, team)`:
muzzle speed 8 along `angle` added to the firer's velocity. -/
def Bullet.create (E : Env) (x y starting_x_velocity starting_y_velocity angle time : ℚ)
    (team : Bool) : Bullet :=
  { toFlying :=
      { Flying.init x y with
        x_velocity := BULLET_SPEED * E.qcos angle + starting_x_velocity,
        y_velocity := BULLET_SPEED * E.qsin angle + starting_y_velocity },
    creation_time := time, team := team }

/-- `Bullet.set_hit_box`: half-width 8 box around the display position. -/
def Bullet.set_hit_box (b : Bullet) : Bullet :=
  { b with x_hit_max := b.x_pos + 8, x_hit_min := b.x_pos - 8,
           y_hit_max := b.y_pos + 8, y_hit_min := b.y_pos - 8 }

/-- `Bullet.move` (inherited from `Flying`). -/
def Bullet.move (b : Bullet) (frame_length : ℚ) : Bullet :=
  { b with toFlying := b.toFlying.move frame_length }

/-! ## game.py constants -/

/-- `MINIMUM_FRAME_LENGTH = 1 / 60`. -/
def MINIMUM_FRAME_LENGTH : ℚ := 1 / 60

/-- `DELAY_BETWEEN_PLAYER_SHOTS = .5`. -/
def DELAY_BETWEEN_PLAYER_SHOTS : ℚ := 1 / 2

/-- `DELAY_BETWEEN_ENEMY_SHOTS = 2.5`. -/
def DELAY_BETWEEN_ENEMY_SHOTS : ℚ := 5 / 2

/-- `TIME_UNTIL_BULLETS_ARE_DELETED = 2`. -/
def TIME_UNTIL_BULLETS_ARE_DELETED : ℚ := 2

/-- `TIME_BETWEEN_ENEMY_SPAWNS = 6`. -/
def TIME_BETWEEN_ENEMY_SPAWNS : ℚ := 6

/-- `MAX_ENEMIES = 5`. -/
def MAX_ENEMIES : ℕ := 5

/-- `PLAYER_DRAG = .97`. -/
def PLAYER_DRAG : ℚ := 97 / 100

/-- `ENEMY_DRAG = .95`. -/
def ENEMY_DRAG : ℚ := 95 / 100

/-! ## game.py: the Game state -/

/-- `game.Game` state.  The music/track-scheduling fields consumed only by
`music_check`/`play_song` (audio collaborator) are omitted. -/
structure Game where
  playing : Bool
  player : Player
  enemies : List Enemy
  bullets : List Bullet
  enemies_killed : ℕ
  current_time : ℚ
  last_time : ℚ
  turn_counter_clockwise : Bool
  turn_clockwise : Bool
  accelerate : Bool
  shoot : Bool
  last_player_shot_time : ℚ
  last_enemy_spawn_time : ℚ

/-- `Game.__init__` with construction wall-clock time `t0`
(the value of `time.time()`). -/
def Game.init (t0 : ℚ) : Game :=
  { playing := true,
    player := Player.init 0 0,
    enemies := [],
    bullets := [],
    enemies_killed := 0,
    current_time := t0,
    last_time := t0 - MINIMUM_FRAME_LENGTH,
    turn_counter_clockwise := false,
    turn_clockwise := false,
    accelerate := false,
    shoot := false,
    last_player_shot_time := -DELAY_BETWEEN_PLAYER_SHOTS,
    last_enemy_spawn_time := t0 }

/-- `Game.player_shoot`: append a player bullet carrying the player's
position, velocity and angle at the current time. -/
def Game.player_shoot (g : Game) (E : Env) : Game :=
  { g with bullets := g.bullets ++
      [Bullet.create E g.player.x_pos g.player.y_pos
        g.player.x_velocity g.player.y_velocity
        g.player.angle g.current_time true] }

/-- `Game.player_move`: turns, optional acceleration, cooldown-gated shot,
then drag, motion, gravity and hit-box refresh. -/
def Game.player_move (g : Game) (E : Env) : Game :=
  let p0 := g.player
  let p1 := if g.turn_counter_clockwise then { p0 with angle := p0.angle + E.piQ / 60 } else p0
  let p2 := if g.turn_clockwise then { p1 with angle := p1.angle - E.piQ / 60 } else p1
  let p3 := if g.accelerate then p2.speed_up E else p2
  let g1 := { g with player := p3 }
  let g2 :=
    if g.shoot = true ∧ g.current_time - g.last_player_shot_time ≥ DELAY_BETWEEN_PLAYER_SHOTS
    then { (g1.player_shoot E) with last_player_shot_time := g.current_time }
    else g1
  let p4 := (((g2.player.drag PLAYER_DRAG).move (g.current_time - g.last_time)).gravity).set_hit_box
  { g2 with player := p4 }

/-- The inner loop of `Game.move_bullets` over `self.enemies` for one bullet
`b` (whose hit box is already refreshed): per enemy, if
`bullet.team and bullet.collision_test(enemy)` the enemy is removed from the
list and one kill is counted.  Removing the current element of a Python list
while `for`-iterating makes the iterator skip the next element, hence the
two-element pattern.  Returns the surviving enemies and the number of kills. -/
def enemyScan (b : Bullet) : List Enemy → List Enemy × ℕ
  | [] => ([], 0)
  | [e] =>
    if b.team && b.toEntity.collision_test e.toEntity then ([], 1) else ([e], 0)
  | e :: f :: rest =>
    if b.team && b.toEntity.collision_test e.toEntity then
      ((enemyScan b rest).1.cons f, (enemyScan b rest).2 + 1)
    else
      ((enemyScan b (f :: rest)).1.cons e, (enemyScan b (f :: rest)).2)

/-- The loop of `Game.move_bullets` over `self.bullets`.  Per bullet, in
source order: age check (removal from the list, with the Python
skip-after-remove semantics), motion integration and hit-box refresh,
enemy-bullet-versus-player test (clearing `playing`), then the enemy scan.
Arguments: frame length, current time, the player's entity (hit box),
then bullets, enemies, `playing`, `enemies_killed`. -/
def bulletLoop (dt now : ℚ) (pent : Entity) :
    List Bullet → List Enemy → Bool → ℕ → List Bullet × List Enemy × Bool × ℕ
  | [], es, pl, k => ([], es, pl, k)
  | [b], es, pl, k =>
    let b1 := (b.move dt).set_hit_box
    let pl1 := if !b1.team && b1.toEntity.collision_test pent then false else pl
    let r := enemyScan b1 es
    if now - b.creation_time ≥ TIME_UNTIL_BULLETS_ARE_DELETED then
      ([], r.1, pl1, k + r.2)
    else
      ([b1], r.1, pl1, k + r.2)
  | b :: c :: rest, es, pl, k =>
    let b1 := (b.move dt).set_hit_box
    let pl1 := if !b1.team && b1.toEntity.collision_test pent then false else pl
    let r := enemyScan b1 es
    if now - b.creation_time ≥ TIME_UNTIL_BULLETS_ARE_DELETED then
      let out := bulletLoop dt now pent rest r.1 pl1 (k + r.2)
      (out.1.cons c, out.2)
    else
      let out := bulletLoop dt now pent (c :: rest) r.1 pl1 (k + r.2)
      (out.1.cons b1, out.2)

/-- `Game.move_bullets`. -/
def Game.move_bullets (g : Game) : Game :=
  let out := bulletLoop (g.current_time - g.last_time) g.current_time
    g.player.toEntity g.bullets g.enemies g.playing g.enemies_killed
  { g with bullets := out.1, enemies := out.2.1,
           playing := out.2.2.1, enemies_killed := out.2.2.2 }

/-- The loop of `Game.enemy_move` over `self.enemies`: chase, drag, motion,
hit-box refresh, then the 2.5-second-gated enemy shot.  No element is
removed, so this is a plain traversal; fired bullets are gathered in order. -/
def enemyLoop (E : Env) (dt now player_x player_y : ℚ) :
    List Enemy → List Enemy × List Bullet
  | [] => ([], [])
  | e :: rest =>
    let e1 := (((e.chase_player E player_x player_y).drag ENEMY_DRAG).move dt).set_hit_box
    let r := enemyLoop E dt now player_x player_y rest
    if now - e1.last_shot_time ≥ DELAY_BETWEEN_ENEMY_SHOTS then
      let e2 := { e1 with last_shot_time := now }
      (e2 :: r.1,
        Bullet.create E e2.x_pos e2.y_pos e2.x_velocity e2.y_velocity e2.angle now false
          :: r.2)
    else
      (e1 :: r.1, r.2)

/-- `Game.enemy_move`: the spawn gate (both the elapsed-time condition and
the `len(self.enemies) <= MAX_ENEMIES` cap must hold for the timer reset
and the append), then the per-enemy loop, which also visits the enemy
spawned this tick. -/
def Game.enemy_move (g : Game) (E : Env) (rd rdeg : ℕ) : Game :=
  let g1 :=
    if g.current_time - g.last_enemy_spawn_time ≥ TIME_BETWEEN_ENEMY_SPAWNS ∧
        g.enemies.length ≤ MAX_ENEMIES then
      { g with last_enemy_spawn_time := g.current_time,
               enemies := g.enemies ++
                 [create_enemy_semi_random_position E rd rdeg g.player.x_pos g.player.y_pos] }
    else g
  let r := enemyLoop E (g1.current_time - g1.last_time) g1.current_time
    g1.player.x_pos g1.player.y_pos g1.enemies
  { g1 with enemies := r.1, bullets := g1.bullets ++ r.2 }

/-- `Game.game_loop(current_time)`: record the new frame time, then player,
enemies, bullets, in that order (`music_check` is the audio collaborator and
touches none of the simulation fields). -/
def Game.game_loop (g : Game) (E : Env) (rd rdeg : ℕ) (current_time : ℚ) : Game :=
  let g0 := { g with last_time := g.current_time, current_time := current_time }
  ((g0.player_move E).enemy_move E rd rdeg).move_bullets

/-! ## Real-valued embedding of the spawn geometry

`create_enemy_semi_random_position` is the one place where the claims are
about exact trigonometry, so it is embedded a second time over `ℝ` with the
genuine `Real.cos`, `Real.sin` and `Real.pi`. -/

/-- Python's `int()` on a real: truncation toward zero. -/
noncomputable def pyIntR (x : ℝ) : ℤ :=
  if 0 ≤ x then ⌊x⌋ else ⌈x⌉

/-- Real-trigonometry embedding of
`create_enemy_semi_random_position(player_x, player_y)`: with the random
draws `distance = randrange(750, 1000)` and
`angle = randrange(0, 360) / 180 * pi` passed in as `rd` and `rdeg`, the
spawned enemy's coordinates are
`(int(player_x + distance*cos(angle)), int(player_y + distance*sin(angle)))`. -/
noncomputable def spawnPosition (player_x player_y : ℝ) (rd rdeg : ℕ) : ℤ × ℤ :=
  let angle : ℝ := (rdeg : ℝ) / 180 * Real.pi
  (pyIntR (player_x + (rd : ℝ) * Real.cos angle),
   pyIntR (player_y + (rd : ℝ) * Real.sin angle))

/-- Euclidean distance between the spawned enemy and the player. -/
noncomputable def spawnDistance (player_x player_y : ℝ) (rd rdeg : ℕ) : ℝ :=
  Real.sqrt ((((spawnPosition player_x player_y rd rdeg).1 : ℝ) - player_x) ^ 2 +
    (((spawnPosition player_x player_y rd rdeg).2 : ℝ) - player_y) ^ 2)

/-! ## Concrete fixtures for counterexamples and witnesses -/

/-- A concrete numeric environment used to evaluate the model on closed
inputs whose conclusions do not depend on the trigonometric values. -/
def testEnv : Env :=
  { qcos := fun _ => 1, qsin := fun _ => 0, qatan2 := fun _ _ => 0, piQ := 0 }

/-- A player bullet that was just fired from rest at angle 0 (velocity
`(8, 0)`) one frame ago at position `(-8, 0)`, at time 1. -/
def pBulletFix : Bullet :=
  { toFlying := { Flying.init (-8) 0 with x_velocity := 8, y_velocity := 0 },
    creation_time := 1, team := true }

/-- An enemy bullet fired from rest at angle 0 at position `(-8, 0)` at
time 0; by time 2 it has reached the 2-second time to live. -/
def eBulletFix : Bullet :=
  { toFlying := { Flying.init (-8) 0 with x_velocity := 8, y_velocity := 0 },
    creation_time := 0, team := false }

/-- Game state for the multi-kill scenario: one fresh player bullet about to
overlap three enemies whose hit boxes were set this tick. -/
def gScanFix : Game :=
  { playing := true,
    player := (Player.init 200 200).set_hit_box,
    enemies := [(Enemy.init 0 0).set_hit_box, (Enemy.init 6 0).set_hit_box,
      (Enemy.init (-6) 0).set_hit_box],
    bullets := [pBulletFix],
    enemies_killed := 0,
    current_time := 1,
    last_time := 1 - 1 / 60,
    turn_counter_clockwise := false, turn_clockwise := false,
    accelerate := false, shoot := false,
    last_player_shot_time := -DELAY_BETWEEN_PLAYER_SHOTS,
    last_enemy_spawn_time := 1 }

/-- Game state for the aged-bullet scenario: a single enemy bullet reaching
its time to live exactly while overlapping the player. -/
def gAgedFix : Game :=
  { playing := true,
    player := (Player.init 0 0).set_hit_box,
    enemies := [],
    bullets := [eBulletFix],
    enemies_killed := 0,
    current_time := 2,
    last_time := 2 - 1 / 60,
    turn_counter_clockwise := false, turn_clockwise := false,
    accelerate := false, shoot := false,
    last_player_shot_time := -DELAY_BETWEEN_PLAYER_SHOTS,
    last_enemy_spawn_time := 2 }

/-- Game state for the spawn-timer scenario: six enemies are alive (the
`<= MAX_ENEMIES` cap plus the extra enemy it admits) and more than six
seconds have elapsed since the last spawn. -/
def gSpawnFix : Game :=
  { playing := true,
    player := (Player.init 0 0).set_hit_box,
    enemies := [(Enemy.init 800 0).set_hit_box, (Enemy.init 900 0).set_hit_box,
      (Enemy.init 800 100).set_hit_box, (Enemy.init 900 100).set_hit_box,
      (Enemy.init 800 200).set_hit_box, (Enemy.init 900 200).set_hit_box],
    bullets := [],
    enemies_killed := 0,
    current_time := 10,
    last_time := 10 - 1 / 60,
    turn_counter_clockwise := false, turn_clockwise := false,
    accelerate := false, shoot := false,
    last_player_shot_time := -DELAY_BETWEEN_PLAYER_SHOTS,
    last_enemy_spawn_time := 0 }

/-- Game state with five live enemies and the spawn timer expired, for the
boundary case of the enemy cap. -/
def gCapFix : Game :=
  { playing := true,
    player := (Player.init 0 0).set_hit_box,
    enemies := [(Enemy.init 800 0).set_hit_box, (Enemy.init 900 0).set_hit_box,
      (Enemy.init 800 100).set_hit_box, (Enemy.init 900 100).set_hit_box,
      (Enemy.init 800 200).set_hit_box],
    bullets := [],
    enemies_killed := 0,
    current_time := 10,
    last_time := 10 - 1 / 60,
    turn_counter_clockwise := false, turn_clockwise := false,
    accelerate := false, shoot := false,
    last_player_shot_time := -DELAY_BETWEEN_PLAYER_SHOTS,
    last_enemy_spawn_time := 0 }

/-- Game state with the fire command held while the cooldown window is
still open (the previous shot happened at the current instant). -/
def gCooldownFix : Game :=
  { Game.init 10 with shoot := true, last_player_shot_time := 10 }

/-- The state in which the first `game_loop(now)` tick of a session
constructed at wall-clock time `t0` runs `player_move`, with the fire
command held: `game_loop` has just rolled the clock forward
(`last_time := current_time`, `current_time := now`). -/
def firstTickState (t0 now : ℚ) : Game :=
  { Game.init t0 with
    shoot := true,
    last_time := (Game.init t0).current_time,
    current_time := now }

/-! ## Helper lemmas -/

/-- `pyInt` truncates toward zero: its absolute value is the floor of the
absolute value of the argument. -/
theorem pyInt_abs (q : ℚ) : |pyInt q| = ⌊|q|⌋ := by
  unfold pyInt
  by_cases h : 0 ≤ q
  · rw [if_pos h, abs_of_nonneg h, abs_of_nonneg (Int.floor_nonneg.mpr h)]
  · push_neg at h
    have hc : ⌈q⌉ ≤ 0 := Int.ceil_le.mpr (by exact_mod_cast h.le)
    rw [if_neg (not_le.mpr h), abs_of_neg h, abs_of_nonpos hc, ← Int.floor_neg]

/-- `pyIntR` changes a real by strictly less than one. -/
theorem pyIntR_dist (x : ℝ) : |((pyIntR x : ℤ) : ℝ) - x| < 1 := by
  unfold pyIntR
  by_cases h : 0 ≤ x
  · rw [if_pos h, abs_sub_lt_iff]
    constructor
    · linarith [Int.floor_le x]
    · linarith [Int.lt_floor_add_one x]
  · rw [if_neg h, abs_sub_lt_iff]
    constructor
    · linarith [Int.ceil_lt_add_one x]
    · linarith [Int.le_ceil x]

/-- The enemy scan removes exactly as many enemies as kills it counts. -/
theorem enemyScan_length (b : Bullet) :
    ∀ es : List Enemy, (enemyScan b es).1.length + (enemyScan b es).2 = es.length
  | [] => by simp [enemyScan]
  | [e] => by
    by_cases h : (b.team && b.toEntity.collision_test e.toEntity) = true <;>
      simp [enemyScan, h]
  | e :: f :: rest => by
    have h1 := enemyScan_length b rest
    have h2 := enemyScan_length b (f :: rest)
    by_cases h : (b.team && b.toEntity.collision_test e.toEntity) = true <;>
      simp [enemyScan, h] at h1 h2 ⊢ <;> omega

/-- Each removal makes the scan skip the next enemy, so at most every other
enemy can be removed: twice the kill count is at most the length plus one. -/
theorem enemyScan_two_mul_le (b : Bullet) :
    ∀ es : List Enemy, 2 * (enemyScan b es).2 ≤ es.length + 1
  | [] => by simp [enemyScan]
  | [e] => by
    by_cases h : (b.team && b.toEntity.collision_test e.toEntity) = true <;>
      simp [enemyScan, h]
  | e :: f :: rest => by
    have h1 := enemyScan_two_mul_le b rest
    have h2 := enemyScan_two_mul_le b (f :: rest)
    by_cases h : (b.team && b.toEntity.collision_test e.toEntity) = true <;>
      simp [enemyScan, h] at h1 h2 ⊢ <;> omega

/-- The enemy scan reads the bullet only through its team tag and hit box. -/
theorem enemyScan_congr (b1 b2 : Bullet) (ht : b1.team = b2.team)
    (he : b1.toEntity = b2.toEntity) :
    ∀ es : List Enemy, enemyScan b1 es = enemyScan b2 es
  | [] => rfl
  | [e] => by simp only [enemyScan, ht, he]
  | e :: f :: rest => by
    simp only [enemyScan, ht, he, enemyScan_congr b1 b2 ht he rest,
      enemyScan_congr b1 b2 ht he (f :: rest)]

/-- The enemy-move loop removes nothing: it preserves the list length. -/
theorem enemyLoop_length (E : Env) (dt now px py : ℚ) :
    ∀ es : List Enemy, (enemyLoop E dt now px py es).1.length = es.length
  | [] => rfl
  | e :: rest => by
    have h1 := enemyLoop_length E dt now px py rest
    by_cases h : now - ((((e.chase_player E px py).drag ENEMY_DRAG).move dt).set_hit_box).last_shot_time ≥ DELAY_BETWEEN_ENEMY_SHOTS <;>
      simp [enemyLoop, h, h1]

/-- The list of surviving bullets computed by the bullet loop does not
depend on the player's hit box, the enemy list, the playing flag or the
kill counter. -/
theorem bulletLoop_bullets_congr (dt now : ℚ) :
    ∀ (bs : List Bullet) (p1 p2 : Entity) (es1 es2 : List Enemy)
      (pl1 pl2 : Bool) (k1 k2 : ℕ),
      (bulletLoop dt now p1 bs es1 pl1 k1).1 = (bulletLoop dt now p2 bs es2 pl2 k2).1
  | [], _, _, _, _, _, _, _, _ => rfl
  | [b], p1, p2, es1, es2, pl1, pl2, k1, k2 => by
    by_cases h : now - b.creation_time ≥ TIME_UNTIL_BULLETS_ARE_DELETED <;>
      simp [bulletLoop, h]
  | b :: c :: rest, p1, p2, es1, es2, pl1, pl2, k1, k2 => by
    by_cases h : now - b.creation_time ≥ TIME_UNTIL_BULLETS_ARE_DELETED <;>
      simp [bulletLoop, h] <;>
      exact bulletLoop_bullets_congr dt now _ p1 p2 _ _ _ _ _ _

/-- Any bullet strictly younger than the time to live survives the bullet
loop, either in its moved form (when the loop processes it) or untouched
(when a removal just before it makes the loop skip it). -/
theorem bulletLoop_mem_young (dt now : ℚ) :
    ∀ (bs : List Bullet) (p : Entity) (es : List Enemy) (pl : Bool) (k : ℕ)
      (b : Bullet), b ∈ bs →
      now - b.creation_time < TIME_UNTIL_BULLETS_ARE_DELETED →
      (b.move dt).set_hit_box ∈ (bulletLoop dt now p bs es pl k).1 ∨
        b ∈ (bulletLoop dt now p bs es pl k).1
  | [], _, _, _, _, _, hmem, _ => absurd hmem (List.not_mem_nil _)
  | [b0], p, es, pl, k, b, hmem, hyoung => by
    rw [List.mem_singleton] at hmem
    subst hmem
    left
    simp [bulletLoop, not_le.mpr hyoung]
  | b0 :: c :: rest, p, es, pl, k, b, hmem, hyoung => by
    by_cases h : now - b0.creation_time ≥ TIME_UNTIL_BULLETS_ARE_DELETED
    · rcases List.mem_cons.mp hmem with hb | hmem2
      · subst hb
        exact absurd h (not_le.mpr hyoung)
      · rcases List.mem_cons.mp hmem2 with hb | hmem3
        · subst hb
          right
          simp [bulletLoop, h]
        · have ih := bulletLoop_mem_young dt now rest p
            (enemyScan ((b0.move dt).set_hit_box) es).1
            (if !((b0.move dt).set_hit_box).team &&
                ((b0.move dt).set_hit_box).toEntity.collision_test p
              then false else pl)
            (k + (enemyScan ((b0.move dt).set_hit_box) es).2) b hmem3 hyoung
          rcases ih with ih | ih
          · left
            simp only [bulletLoop, if_pos h]
            exact List.mem_cons_of_mem c ih
          · right
            simp only [bulletLoop, if_pos h]
            exact List.mem_cons_of_mem c ih
    · rcases List.mem_cons.mp hmem with hb | hmem2
      · subst hb
        left
        simp only [bulletLoop, if_neg h]
        exact List.mem_cons_self _ _
      · have ih := bulletLoop_mem_young dt now (c :: rest) p
            (enemyScan ((b0.move dt).set_hit_box) es).1
            (if !((b0.move dt).set_hit_box).team &&
                ((b0.move dt).set_hit_box).toEntity.collision_test p
              then false else pl)
            (k + (enemyScan ((b0.move dt).set_hit_box) es).2) b hmem2 hyoung
        rcases ih with ih | ih
        · left
          simp only [bulletLoop, if_neg h]
          exact List.mem_cons_of_mem _ ih
        · right
          simp only [bulletLoop, if_neg h]
          exact List.mem_cons_of_mem _ ih

/-- The bullet loop only ever clears the playing flag: if it comes out
true, it went in true. -/
theorem bulletLoop_playing_mono (dt now : ℚ) :
    ∀ (bs : List Bullet) (p : Entity) (es : List Enemy) (pl : Bool) (k : ℕ),
      (bulletLoop dt now p bs es pl k).2.2.1 = true → pl = true
  | [], _, _, _, _, h => h
  | [b], p, es, pl, k, h => by
    by_cases hb : now - b.creation_time ≥ TIME_UNTIL_BULLETS_ARE_DELETED <;>
      simp [bulletLoop, hb] at h <;> exact h.2
  | b :: c :: rest, p, es, pl, k, h => by
    simp only [bulletLoop] at h
    by_cases hb : now - b.creation_time ≥ TIME_UNTIL_BULLETS_ARE_DELETED
    · rw [if_pos hb] at h
      have h2 := bulletLoop_playing_mono dt now rest _ _ _ _ h
      by_cases hc : (!((b.move dt).set_hit_box).team &&
          ((b.move dt).set_hit_box).toEntity.collision_test p) = true
      · rw [if_pos hc] at h2
        exact absurd h2 (by simp)
      · rw [if_neg hc] at h2
        exact h2
    · rw [if_neg hb] at h
      have h2 := bulletLoop_playing_mono dt now (c :: rest) _ _ _ _ h
      by_cases hc : (!((b.move dt).set_hit_box).team &&
          ((b.move dt).set_hit_box).toEntity.collision_test p) = true
      · rw [if_pos hc] at h2
        exact absurd h2 (by simp)
      · rw [if_neg hc] at h2
        exact h2

/-- `player_move` never touches the playing flag. -/
theorem player_move_playing (g : Game) (E : Env) :
    (g.player_move E).playing = g.playing := by
  simp only [Game.player_move, Game.player_shoot]
  split <;> rfl

/-- `enemy_move` never touches the playing flag. -/
theorem enemy_move_playing (g : Game) (E : Env) (rd rdeg : ℕ) :
    (g.enemy_move E rd rdeg).playing = g.playing := by
  simp only [Game.enemy_move]
  split <;> rfl

/-- `move_bullets` only ever clears the playing flag. -/
theorem move_bullets_playing_mono (g : Game) :
    (g.move_bullets).playing = true → g.playing = true :=
  fun h => bulletLoop_playing_mono _ _ _ _ _ _ _ h

/-! ## Claims -/

/-- Claim C1, amended: the spawn timer `last_enemy_spawn_time` is reset to
the current time exactly when the whole spawn condition holds, i.e. when at
least 6 seconds have elapsed since the last spawn AND the enemy count is at
most 5.  When the count check fails, the timer is NOT reset (the reset sits
inside the conjunction-guarded branch, contrary to the claim). -/
theorem C1_spawn_timer_reset_needs_cap (E : Env) (rd rdeg : ℕ) (g : Game) :
    (g.enemy_move E rd rdeg).last_enemy_spawn_time =
      if g.current_time - g.last_enemy_spawn_time ≥ TIME_BETWEEN_ENEMY_SPAWNS ∧
          g.enemies.length ≤ MAX_ENEMIES
      then g.current_time else g.last_enemy_spawn_time := by
  by_cases h : g.current_time - g.last_enemy_spawn_time ≥ TIME_BETWEEN_ENEMY_SPAWNS ∧
      g.enemies.length ≤ MAX_ENEMIES <;>
    simp [Game.enemy_move, h]

/-- Claim C1, counterexample: in a tick whose state has 6 live enemies and
10 seconds elapsed since the last spawn, the outer time condition holds but
the count check fails, and `enemy_move` leaves the spawn timer at its old
value instead of resetting it to the current time. -/
theorem C1_counterexample :
    (gSpawnFix.enemy_move testEnv 800 0).last_enemy_spawn_time = 0 ∧
    gSpawnFix.current_time - gSpawnFix.last_enemy_spawn_time ≥ TIME_BETWEEN_ENEMY_SPAWNS ∧
    gSpawnFix.enemies.length = 6 ∧
    gSpawnFix.last_enemy_spawn_time ≠ gSpawnFix.current_time := by
  norm_num [Game.enemy_move, enemyLoop, gSpawnFix, testEnv, Enemy.init, Enemy.set_hit_box,
    Enemy.chase_player, Enemy.drag, Enemy.move, Flying.init, Flying.accelerate, Flying.move,
    Flying.drag, TrueCoordinates.shift_position, TrueCoordinates.set_integer_position, pyInt,
    Player.init, Player.set_hit_box, Bullet.create, create_enemy_semi_random_position,
    TIME_BETWEEN_ENEMY_SPAWNS, MAX_ENEMIES, DELAY_BETWEEN_ENEMY_SHOTS, ENEMY_DRAG, ENEMY_SPEED,
    BULLET_SPEED]

/-- Claim C2, amended: in one tick's scan a player bullet removes exactly as
many enemies as kills it counts, and — because each removal makes the
iterator skip the following enemy — at most every other enemy, i.e. at most
`(n + 1) / 2` of `n` live enemies; but this can exceed one enemy per bullet
per tick. -/
theorem C2_scan_kill_bound (b : Bullet) (es : List Enemy) :
    (enemyScan b es).1.length + (enemyScan b es).2 = es.length ∧
    (enemyScan b es).2 ≤ (es.length + 1) / 2 := by
  refine ⟨enemyScan_length b es, ?_⟩
  have h := enemyScan_two_mul_le b es
  omega

/-- Claim C2, counterexample: a single player bullet overlapping all three
live enemies removes two of them in one `move_bullets` tick (the removal of
the first enemy makes the loop skip the second, and the third is then also
removed), incrementing `enemies_killed` from 0 to 2 — not at most 1. -/
theorem C2_counterexample :
    (gScanFix.move_bullets).enemies_killed = 2 ∧ gScanFix.enemies_killed = 0 ∧
    gScanFix.bullets.length = 1 ∧ (gScanFix.move_bullets).enemies.length = 1 := by
  norm_num [Game.move_bullets, bulletLoop, enemyScan, gScanFix, pBulletFix,
    Bullet.move, Bullet.set_hit_box, Flying.move, TrueCoordinates.shift_position,
    TrueCoordinates.set_integer_position, pyInt, Entity.collision_test,
    Flying.init, Enemy.init, Enemy.set_hit_box, Player.init, Player.set_hit_box,
    TIME_UNTIL_BULLETS_ARE_DELETED]

/-- Claim C3, amended: a bullet whose age has reached 2.0 seconds at the
start of its processing is removed from the active set, but its final
move/hit-box update in that tick remains fully observable: the processing
of a single bullet has exactly the same effect on the enemy list, the
playing flag and the kill counter whatever its creation time (so an aged
bullet can still cause a game-over or remove an enemy and score in the tick
that removes it); only its own survival in the bullet list is decided by
the age check. -/
theorem C3_aged_bullet_effects_observable (dt now : ℚ) (pent : Entity) (es : List Enemy)
    (pl : Bool) (k : ℕ) (b : Bullet) (t2 : ℚ) :
    (bulletLoop dt now pent [b] es pl k).2 =
      (bulletLoop dt now pent [{ b with creation_time := t2 }] es pl k).2 ∧
    ((bulletLoop dt now pent [b] es pl k).1 = [] ↔
      now - b.creation_time ≥ TIME_UNTIL_BULLETS_ARE_DELETED) := by
  have hsc : enemyScan ((({ b with creation_time := t2 } : Bullet).move dt).set_hit_box) es =
      enemyScan ((b.move dt).set_hit_box) es :=
    enemyScan_congr ((({ b with creation_time := t2 } : Bullet).move dt).set_hit_box)
      ((b.move dt).set_hit_box) rfl rfl es
  have ht : (({ b with creation_time := t2 } : Bullet).move dt).set_hit_box.team =
      ((b.move dt).set_hit_box).team := rfl
  have he : (({ b with creation_time := t2 } : Bullet).move dt).set_hit_box.toEntity =
      ((b.move dt).set_hit_box).toEntity := rfl
  constructor
  · by_cases h1 : now - b.creation_time ≥ TIME_UNTIL_BULLETS_ARE_DELETED <;>
    by_cases h2 : now - ({ b with creation_time := t2 } : Bullet).creation_time ≥
        TIME_UNTIL_BULLETS_ARE_DELETED <;>
      simp [bulletLoop, h1, h2, hsc, ht, he]
  · by_cases h1 : now - b.creation_time ≥ TIME_UNTIL_BULLETS_ARE_DELETED <;>
      simp [bulletLoop, h1]

/-- Claim C3, counterexample: an enemy bullet created at time 0 and
processed at time 2 (age exactly the 2.0-second limit) is removed from the
active set, yet its final move and collision check still fire the game-over
transition: `playing` flips from true to false on account of that very
bullet, contradicting "no observable effect". -/
theorem C3_counterexample :
    (gAgedFix.move_bullets).playing = false ∧ gAgedFix.playing = true ∧
    gAgedFix.bullets.length = 1 ∧
    gAgedFix.current_time - eBulletFix.creation_time ≥ TIME_UNTIL_BULLETS_ARE_DELETED ∧
    (gAgedFix.move_bullets).bullets.length = 0 := by
  norm_num [Game.move_bullets, bulletLoop, enemyScan, gAgedFix, eBulletFix,
    Bullet.move, Bullet.set_hit_box, Flying.move, TrueCoordinates.shift_position,
    TrueCoordinates.set_integer_position, pyInt, Entity.collision_test,
    Flying.init, Player.init, Player.set_hit_box, TIME_UNTIL_BULLETS_ARE_DELETED]

/-- Claim C5: the bullet list surviving a `move_bullets` scan does not
depend on the player's hit box, the enemy list, the playing flag or the
kill counter (so no collision, in particular no kill, ever removes a
bullet); and every bullet strictly younger than the 2.0-second time to live
is still in the active set afterwards — in moved form when the loop
processed it, untouched when a preceding removal made the loop skip it. -/
theorem C5_kill_does_not_consume_bullet (dt now : ℚ) (p1 p2 : Entity)
    (bs : List Bullet) (es1 es2 : List Enemy) (pl1 pl2 : Bool) (k1 k2 : ℕ) (b : Bullet) :
    (bulletLoop dt now p1 bs es1 pl1 k1).1 = (bulletLoop dt now p2 bs es2 pl2 k2).1 ∧
    (b ∈ bs → now - b.creation_time < TIME_UNTIL_BULLETS_ARE_DELETED →
      (b.move dt).set_hit_box ∈ (bulletLoop dt now p1 bs es1 pl1 k1).1 ∨
        b ∈ (bulletLoop dt now p1 bs es1 pl1 k1).1) :=
  ⟨bulletLoop_bullets_congr dt now bs p1 p2 es1 es2 pl1 pl2 k1 k2,
   fun hm hy => bulletLoop_mem_young dt now bs p1 es1 pl1 k1 b hm hy⟩

/-- Claim C5, witness: the concrete scoring bullet of the multi-kill
fixture (young, overlapping enemies) is still active after the scan. -/
theorem C5_witness :
    pBulletFix ∈ gScanFix.bullets ∧
    (1 : ℚ) - pBulletFix.creation_time < TIME_UNTIL_BULLETS_ARE_DELETED ∧
    ((pBulletFix.move (1 / 60)).set_hit_box ∈
        (bulletLoop (1 / 60) 1 gScanFix.player.toEntity gScanFix.bullets
          gScanFix.enemies true 0).1 ∨
      pBulletFix ∈ (bulletLoop (1 / 60) 1 gScanFix.player.toEntity gScanFix.bullets
          gScanFix.enemies true 0).1) :=
  ⟨by simp [gScanFix],
   by norm_num [pBulletFix, TIME_UNTIL_BULLETS_ARE_DELETED],
   (C5_kill_does_not_consume_bullet (1 / 60) 1 gScanFix.player.toEntity
      gScanFix.player.toEntity gScanFix.bullets gScanFix.enemies gScanFix.enemies
      true true 0 0 pBulletFix).2
    (by simp [gScanFix])
    (by norm_num [pBulletFix, TIME_UNTIL_BULLETS_ARE_DELETED])⟩

/-- Claim C6: one enemy is appended by `enemy_move` exactly when at least
6 seconds have elapsed since the last spawn and the current enemy count is
at most `MAX_ENEMIES = 5`; in particular with exactly 5 live enemies and
the timer expired, a 6th enemy spawns (the bound is `≤ 5`, not `< 5`). -/
theorem C6_spawn_iff_time_and_cap (E : Env) (rd rdeg : ℕ) (g : Game) :
    ((g.enemy_move E rd rdeg).enemies.length =
      if g.current_time - g.last_enemy_spawn_time ≥ TIME_BETWEEN_ENEMY_SPAWNS ∧
          g.enemies.length ≤ MAX_ENEMIES
      then g.enemies.length + 1 else g.enemies.length) ∧
    (g.enemies.length = MAX_ENEMIES →
      g.current_time - g.last_enemy_spawn_time ≥ TIME_BETWEEN_ENEMY_SPAWNS →
      (g.enemy_move E rd rdeg).enemies.length = MAX_ENEMIES + 1) := by
  by_cases h : g.current_time - g.last_enemy_spawn_time ≥ TIME_BETWEEN_ENEMY_SPAWNS ∧
      g.enemies.length ≤ MAX_ENEMIES
  · constructor
    · simp [Game.enemy_move, h, enemyLoop_length]
    · intro h5 _
      simp [Game.enemy_move, h, enemyLoop_length, h5]
  · constructor
    · simp [Game.enemy_move, h, enemyLoop_length]
    · intro h5 h6
      exact absurd ⟨h6, le_of_eq h5⟩ h

/-- Claim C6, witness: with exactly five live enemies and an expired spawn
timer, a sixth enemy is present after `enemy_move`. -/
theorem C6_witness :
    gCapFix.enemies.length = MAX_ENEMIES ∧
    gCapFix.current_time - gCapFix.last_enemy_spawn_time ≥ TIME_BETWEEN_ENEMY_SPAWNS ∧
    (gCapFix.enemy_move testEnv 800 0).enemies.length = MAX_ENEMIES + 1 :=
  ⟨by simp [gCapFix, MAX_ENEMIES],
   by norm_num [gCapFix, TIME_BETWEEN_ENEMY_SPAWNS],
   (C6_spawn_iff_time_and_cap testEnv 800 0 gCapFix).2
    (by simp [gCapFix, MAX_ENEMIES])
    (by norm_num [gCapFix, TIME_BETWEEN_ENEMY_SPAWNS])⟩

/-- Claim C7: in `player_move` a player bullet is appended exactly when the
shoot flag is set and at least 0.5 seconds have elapsed since the last
shot, in which case `last_player_shot_time` is reset to the current tick
time; in particular, while the cooldown window is open a held fire command
produces no bullet. -/
theorem C7_shot_cooldown (E : Env) (g : Game) :
    ((g.player_move E).bullets.length =
      if g.shoot = true ∧
          g.current_time - g.last_player_shot_time ≥ DELAY_BETWEEN_PLAYER_SHOTS
      then g.bullets.length + 1 else g.bullets.length) ∧
    ((g.player_move E).last_player_shot_time =
      if g.shoot = true ∧
          g.current_time - g.last_player_shot_time ≥ DELAY_BETWEEN_PLAYER_SHOTS
      then g.current_time else g.last_player_shot_time) ∧
    (g.shoot = true →
      g.current_time - g.last_player_shot_time < DELAY_BETWEEN_PLAYER_SHOTS →
      (g.player_move E).bullets.length = g.bullets.length) := by
  by_cases h : g.shoot = true ∧
      g.current_time - g.last_player_shot_time ≥ DELAY_BETWEEN_PLAYER_SHOTS
  · refine ⟨?_, ?_, fun _ hlt => absurd h.2 (not_le.mpr hlt)⟩ <;>
      simp [Game.player_move, Game.player_shoot, h]
  · refine ⟨?_, ?_, fun _ _ => ?_⟩ <;>
      simp [Game.player_move, Game.player_shoot, h]

/-- Claim C7, witness: with the fire command held but only the construction
state's cooldown not yet elapsed (shot 0 seconds ago), no bullet is
created. -/
theorem C7_witness :
    gCooldownFix.shoot = true ∧
    gCooldownFix.current_time - gCooldownFix.last_player_shot_time <
      DELAY_BETWEEN_PLAYER_SHOTS ∧
    (gCooldownFix.player_move testEnv).bullets.length = gCooldownFix.bullets.length :=
  ⟨rfl,
   by norm_num [gCooldownFix, Game.init, DELAY_BETWEEN_PLAYER_SHOTS],
   (C7_shot_cooldown testEnv gCooldownFix).2.2 rfl
    (by norm_num [gCooldownFix, Game.init, DELAY_BETWEEN_PLAYER_SHOTS])⟩

/-- Claim C8: after any `shift_position`, the integer display position of a
`TrueCoordinates` object equals, on each axis independently, the truncation
toward zero (`pyInt`) of its float position; `pyInt` is genuinely the
toward-zero truncation, its magnitude being the floor of the magnitude. -/
theorem C8_display_is_truncated_true (t : TrueCoordinates) (x_shift y_shift : ℚ) :
    ((t.shift_position x_shift y_shift).x_pos =
        ((pyInt (t.shift_position x_shift y_shift).true_x_pos : ℤ) : ℚ) ∧
      (t.shift_position x_shift y_shift).y_pos =
        ((pyInt (t.shift_position x_shift y_shift).true_y_pos : ℤ) : ℚ)) ∧
    ∀ q : ℚ, |pyInt q| = ⌊|q|⌋ :=
  ⟨⟨rfl, rfl⟩, pyInt_abs⟩

/-- Claim C9: the playing flag starts true at construction and is monotone
within a session: no `game_loop` tick (nor any of the updates it calls)
ever turns `playing` from false back to true. -/
theorem C9_playing_monotone (t0 : ℚ) (E : Env) (rd rdeg : ℕ) (now : ℚ) (g : Game) :
    (Game.init t0).playing = true ∧
    ((g.game_loop E rd rdeg now).playing = true → g.playing = true) := by
  refine ⟨rfl, fun h => ?_⟩
  have h2 := move_bullets_playing_mono _ h
  rw [enemy_move_playing, player_move_playing] at h2
  exact h2

/-- Claim C9, witness: a quiet first tick from a fresh session keeps
`playing` true, and the fresh session starts with `playing` true. -/
theorem C9_witness :
    ((Game.init 0).game_loop testEnv 800 0 0).playing = true ∧
    (Game.init 0).playing = true :=
  ⟨by
    norm_num [Game.game_loop, Game.init, Game.player_move, Game.player_shoot, Game.enemy_move,
      Game.move_bullets, bulletLoop, enemyScan, enemyLoop, testEnv, Player.init,
      Player.set_hit_box, Player.drag, Player.move, Player.gravity, Player.speed_up, Flying.init,
      Flying.accelerate, Flying.move, Flying.drag, Flying.gravity, TrueCoordinates.shift_position,
      TrueCoordinates.set_integer_position, pyInt, Entity.collision_test, Bullet.create,
      create_enemy_semi_random_position, Enemy.init, Enemy.chase_player, Enemy.drag, Enemy.move,
      Enemy.set_hit_box, MINIMUM_FRAME_LENGTH, DELAY_BETWEEN_PLAYER_SHOTS,
      TIME_BETWEEN_ENEMY_SPAWNS, MAX_ENEMIES, DELAY_BETWEEN_ENEMY_SHOTS, PLAYER_DRAG, ENEMY_DRAG,
      GRAVITY_CONSTANT, PLAYER_SPEED, ENEMY_SPEED, BULLET_SPEED, TIME_UNTIL_BULLETS_ARE_DELETED],
   (C9_playing_monotone 0 testEnv 800 0 0 (Game.init 0)).2
    (by
      norm_num [Game.game_loop, Game.init, Game.player_move, Game.player_shoot, Game.enemy_move,
        Game.move_bullets, bulletLoop, enemyScan, enemyLoop, testEnv, Player.init,
        Player.set_hit_box, Player.drag, Player.move, Player.gravity, Player.speed_up,
        Flying.init, Flying.accelerate, Flying.move, Flying.drag, Flying.gravity,
        TrueCoordinates.shift_position, TrueCoordinates.set_integer_position, pyInt,
        Entity.collision_test, Bullet.create, create_enemy_semi_random_position, Enemy.init,
        Enemy.chase_player, Enemy.drag, Enemy.move, Enemy.set_hit_box, MINIMUM_FRAME_LENGTH,
        DELAY_BETWEEN_PLAYER_SHOTS, TIME_BETWEEN_ENEMY_SPAWNS, MAX_ENEMIES,
        DELAY_BETWEEN_ENEMY_SHOTS, PLAYER_DRAG, ENEMY_DRAG, GRAVITY_CONSTANT, PLAYER_SPEED,
        ENEMY_SPEED, BULLET_SPEED, TIME_UNTIL_BULLETS_ARE_DELETED])⟩

/-- Claim C10: a fresh session has `last_player_shot_time = -0.5`, so on
the first tick (entered with any nonnegative construction time and any
current time at least it) the 0.5-second cooldown is already satisfied:
with the shoot flag set, `player_move` fires exactly one bullet at once and
stamps `last_player_shot_time` with the tick time. -/
theorem C10_first_tick_shot_ready (E : Env) (t0 now : ℚ) (h0 : 0 ≤ t0) (h1 : t0 ≤ now) :
    (Game.init t0).last_player_shot_time = -DELAY_BETWEEN_PLAYER_SHOTS ∧
    ((firstTickState t0 now).player_move E).bullets.length = 1 ∧
    ((firstTickState t0 now).player_move E).last_player_shot_time = now := by
  have hcond : now - -DELAY_BETWEEN_PLAYER_SHOTS ≥ DELAY_BETWEEN_PLAYER_SHOTS := by
    unfold DELAY_BETWEEN_PLAYER_SHOTS
    linarith
  have h2 : (0 : ℚ) ≤ now := le_trans h0 h1
  refine ⟨rfl, ?_, ?_⟩ <;>
    simp [firstTickState, Game.player_move, Game.player_shoot, Game.init, hcond, h2]

/-- Claim C10, witness: constructed at wall-clock time 100 and ticked at
time 100 with the fire command held, the session fires immediately. -/
theorem C10_witness :
    (0 : ℚ) ≤ 100 ∧ (100 : ℚ) ≤ 100 ∧
    ((Game.init 100).last_player_shot_time = -DELAY_BETWEEN_PLAYER_SHOTS ∧
     ((firstTickState 100 100).player_move testEnv).bullets.length = 1 ∧
     ((firstTickState 100 100).player_move testEnv).last_player_shot_time = 100) :=
  ⟨by decide, by decide, C10_first_tick_shot_ready testEnv 100 100 (by decide) (by decide)⟩

/-- Claim C4, counterexample: sampling radius 750 (a valid `randrange(750,
1000)` draw) and angle 45 degrees (a valid `randrange(0, 360)` draw, inside
`[0, 2*pi)`) with the player at the origin, the spawned enemy sits at the
`int()`-truncated point `(530, 530)`, whose distance from the player is
`sqrt 561800 < 750`: the distance falls OUTSIDE `[750, 1000)`. -/
theorem C4_counterexample : spawnDistance 0 0 750 45 < 750 := by
  have hs2nn : (0 : ℝ) ≤ Real.sqrt 2 := Real.sqrt_nonneg 2
  have h530 : (530 : ℝ) ≤ 375 * Real.sqrt 2 := by
    have h : (530 : ℝ) / 375 ≤ Real.sqrt 2 :=
      (Real.le_sqrt (by norm_num) (by norm_num)).mpr (by norm_num)
    linarith
  have h531 : 375 * Real.sqrt 2 < 531 := by
    have h : Real.sqrt 2 < 531 / 375 :=
      (Real.sqrt_lt' (by norm_num)).mpr (by norm_num)
    linarith
  have hfl : ⌊(375 : ℝ) * Real.sqrt 2⌋ = (530 : ℤ) := by
    rw [Int.floor_eq_iff]
    constructor
    · push_cast
      linarith
    · push_cast
      linarith
  have hang : ((45 : ℕ) : ℝ) / 180 * Real.pi = Real.pi / 4 := by
    push_cast
    ring_nf
  have hval : (0 : ℝ) + ((750 : ℕ) : ℝ) * (Real.sqrt 2 / 2) = 375 * Real.sqrt 2 := by
    push_cast
    ring
  have hpos : spawnPosition 0 0 750 45 = (530, 530) := by
    simp only [spawnPosition, pyIntR, hang, Real.cos_pi_div_four, Real.sin_pi_div_four, hval]
    rw [if_pos (by positivity : (0 : ℝ) ≤ 375 * Real.sqrt 2), hfl]
  have hdist : spawnDistance 0 0 750 45 = Real.sqrt 561800 := by
    simp only [spawnDistance, hpos]
    norm_num
  rw [hdist]
  exact (Real.sqrt_lt' (by norm_num)).mpr (by norm_num)

/-- Claim C4, amended: for every sampled radius in `[750, 1000)` and every
sampled angle, the spawned enemy lies within `sqrt 2` of the exact annulus
point (each coordinate being `int()`-truncated moves it by less than 1 per
axis), so its distance from the player lies strictly between
`750 - sqrt 2` and `999 + sqrt 2`; the exact bounds `[750, 1000)` of the
claim do not survive the truncation. -/
theorem C4_spawn_distance_near_annulus (px py : ℝ) (rd rdeg : ℕ)
    (h1 : 750 ≤ rd) (h2 : rd < 1000) :
    750 - Real.sqrt 2 < spawnDistance px py rd rdeg ∧
      spawnDistance px py rd rdeg < 999 + Real.sqrt 2 := by
  have hP : spawnPosition px py rd rdeg =
      (pyIntR (px + (rd : ℝ) * Real.cos ((rdeg : ℝ) / 180 * Real.pi)),
       pyIntR (py + (rd : ℝ) * Real.sin ((rdeg : ℝ) / 180 * Real.pi))) := rfl
  set c : ℝ := Real.cos ((rdeg : ℝ) / 180 * Real.pi) with hc
  set s : ℝ := Real.sin ((rdeg : ℝ) / 180 * Real.pi) with hs
  set d : ℝ := (rd : ℝ) with hdd
  have hd0 : (0 : ℝ) ≤ d := Nat.cast_nonneg rd
  have hd750 : (750 : ℝ) ≤ d := by
    rw [hdd]
    exact_mod_cast h1
  have hd999 : d ≤ 999 := by
    have h3 : rd ≤ 999 := by omega
    rw [hdd]
    exact_mod_cast h3
  set X : ℝ := ((pyIntR (px + d * c) : ℤ) : ℝ) with hX
  set Y : ℝ := ((pyIntR (py + d * s) : ℤ) : ℝ) with hY
  have hXd : |X - (px + d * c)| < 1 := pyIntR_dist _
  have hYd : |Y - (py + d * s)| < 1 := pyIntR_dist _
  set z : ℂ := ⟨X - px, Y - py⟩ with hz
  set w : ℂ := ⟨d * c, d * s⟩ with hw
  have habsw : Complex.abs w = d := by
    rw [Complex.abs_apply]
    have hn : Complex.normSq w = d ^ 2 := by
      rw [hw, Complex.normSq_mk]
      calc d * c * (d * c) + d * s * (d * s) = d ^ 2 * (s ^ 2 + c ^ 2) := by ring
        _ = d ^ 2 * 1 := by rw [hs, hc, Real.sin_sq_add_cos_sq]
        _ = d ^ 2 := by ring
    rw [hn, Real.sqrt_sq hd0]
  have habszw : Complex.abs (z - w) < Real.sqrt 2 := by
    have hre : (z - w).re = X - px - d * c := by
      rw [hz, hw]
      simp
    have him : (z - w).im = Y - py - d * s := by
      rw [hz, hw]
      simp
    rw [Complex.abs_apply, Complex.normSq_apply, hre, him]
    have e1 : (X - px - d * c) ^ 2 < 1 := by
      have h4 : |X - px - d * c| < 1 := by
        rw [show X - px - d * c = X - (px + d * c) by ring]
        exact hXd
      exact (sq_lt_one_iff_abs_lt_one _).mpr h4
    have e2 : (Y - py - d * s) ^ 2 < 1 := by
      have h4 : |Y - py - d * s| < 1 := by
        rw [show Y - py - d * s = Y - (py + d * s) by ring]
        exact hYd
      exact (sq_lt_one_iff_abs_lt_one _).mpr h4
    have hlt : (X - px - d * c) * (X - px - d * c) +
        (Y - py - d * s) * (Y - py - d * s) < 2 := by nlinarith
    exact Real.sqrt_lt_sqrt
      (by nlinarith [mul_self_nonneg (X - px - d * c), mul_self_nonneg (Y - py - d * s)]) hlt
  have habsz : spawnDistance px py rd rdeg = Complex.abs z := by
    have hD : spawnDistance px py rd rdeg =
        Real.sqrt ((X - px) ^ 2 + (Y - py) ^ 2) := rfl
    rw [hD, hz, Complex.abs_apply, Complex.normSq_mk]
    exact congrArg Real.sqrt (by ring)
  have hupper : Complex.abs z ≤ Complex.abs w + Complex.abs (z - w) := by
    have h5 := norm_add_le w (z - w)
    rw [show w + (z - w) = z by ring] at h5
    simpa [Complex.norm_eq_abs] using h5
  have hlower : Complex.abs w - Complex.abs (z - w) ≤ Complex.abs z := by
    have h5 := norm_sub_norm_le w (w - z)
    rw [show w - (w - z) = z by ring] at h5
    rw [norm_sub_rev w z] at h5
    simp only [Complex.norm_eq_abs] at h5
    linarith
  constructor
  · rw [habsz]
    have := habszw
    linarith [hlower, habsw]
  · rw [habsz]
    linarith [hupper, habsw, habszw]

/-- Claim C4, witness for the amended bound: the counterexample draw itself
(radius 750, angle 45 degrees, player at the origin) satisfies it. -/
theorem C4_witness :
    (750 ≤ 750 ∧ 750 < 1000) ∧
    (750 - Real.sqrt 2 < spawnDistance 0 0 750 45 ∧
      spawnDistance 0 0 750 45 < 999 + Real.sqrt 2) :=
  ⟨⟨by decide, by decide⟩, C4_spawn_distance_near_annulus 0 0 750 45 (by decide) (by decide)⟩
